import Mathlib

/-!
Verification development for the retail-insights-assistant pipeline.

The Python sources under `src/` are shallowly embedded below:

* `src/src/agents/extraction_agent.py`  (`DataExtractionAgent`)
* `src/src/agents/validation_agent.py`  (`ValidationAgent`)
* `src/src/agents/synthesis_agent.py`   (`SynthesisAgent`, the parts the
  orchestrator reaches)
* `src/src/agents/query_agent.py`       (`QueryResolutionAgent`)
* `src/src/agents/orchestrator.py`      (`RetailInsightsOrchestrator`)

Conventions of the embedding:

* A pandas `DataFrame` is a `DataFrame` below: an ordered list of named,
  typed columns and an ordered list of rows of cells.  A missing value
  (`NaN`/`NaT`/`None`) is the cell `Cell.null`.
* Python floats are modelled as exact rationals; the tiny rounding error of
  IEEE arithmetic is abstracted away, as is decimal string formatting.
* The LLM provider and the tabular engine are collaborators: they are
  modelled as oracle values or functions, where `none` / `.error` means the
  call raised a provider error.
* Python code that raises is modelled with `Except String`.
-/

namespace Retail

/-- Declared semantic type of a column (pandas dtype, coarsened to the three
kinds the code distinguishes: numeric, object/text, datetime64). -/
inductive DType where
  | numeric
  | text
  | datetime
deriving DecidableEq, Repr

/-- One cell of a tabular relation.  `null` models pandas missing values. -/
inductive Cell where
  | null
  | num (q : ℚ)
  | str (s : String)
  | dt (t : ℤ)
deriving DecidableEq, Repr

/-- In-memory tabular relation: named typed columns plus rows of cells
(the embedding of a pandas `DataFrame`). -/
structure DataFrame where
  cols : List (String × DType)
  rows : List (List Cell)
deriving DecidableEq, Repr

/-- The numeric content of a cell, as used by pandas reductions with
`skipna` semantics: a null contributes nothing to a sum. -/
def Cell.toQ : Cell → ℚ
  | .num q => q
  | .dt t => (t : ℚ)
  | _ => 0

/-- Whether `p` is a leading segment of `s` (on character lists). -/
def charsHasPre : List Char → List Char → Bool
  | [], _ => true
  | _ :: _, [] => false
  | a :: p, b :: s => a == b && charsHasPre p s

/-- Whether `needle` occurs as a contiguous run inside `hay`
(on character lists). -/
def charsContains (needle : List Char) : List Char → Bool
  | [] => charsHasPre needle []
  | b :: t => charsHasPre needle (b :: t) || charsContains needle t

/-- Python substring membership `needle in hay` for strings. -/
def containsSub (hay needle : String) : Bool :=
  charsContains needle.data hay.data

/-- Python `str.lower()` (code-point lowercasing, on the character list). -/
def strLower (s : String) : String :=
  String.mk (s.data.map Char.toLower)

/-- Lexicographic order on character lists: how Python compares the strings
held in object columns when pandas sorts them. -/
def charsLe : List Char → List Char → Bool
  | [], _ => true
  | _ :: _, [] => false
  | a :: as, b :: bs => if a == b then charsLe as bs else decide (a < b)

theorem charsLe_total (a b : List Char) : charsLe a b = true ∨ charsLe b a = true := by
  induction a generalizing b with
  | nil => exact Or.inl rfl
  | cons x xs ih =>
    cases b with
    | nil => exact Or.inr rfl
    | cons y ys =>
      by_cases hxy : x = y
      · subst hxy
        simpa [charsLe] using ih ys
      · rcases lt_or_gt_of_ne hxy with h | h
        · exact Or.inl (by simp [charsLe, hxy, h])
        · refine Or.inr (by simp [charsLe, Ne.symm hxy, h])

theorem charsLe_trans :
    ∀ {a b c : List Char}, charsLe a b = true → charsLe b c = true →
      charsLe a c = true
  | [], _, _, _, _ => rfl
  | _ :: _, [], _, hab, _ => by simp [charsLe] at hab
  | _ :: _, _ :: _, [], _, hbc => by simp [charsLe] at hbc
  | x :: xs, y :: ys, z :: zs, hab, hbc => by
    simp only [charsLe, beq_iff_eq] at hab hbc ⊢
    by_cases hxy : x = y <;> by_cases hyz : y = z
    · subst hxy; subst hyz
      simp only [if_pos rfl] at *
      exact charsLe_trans hab hbc
    · subst hxy
      simp_all
    · subst hyz
      simp_all
    · simp only [if_neg hxy, if_neg hyz, decide_eq_true_eq] at hab hbc
      have hxz : x < z := lt_trans hab hbc
      simp [ne_of_lt hxz, hxz]

/-- A fixed total preorder on cells, Bool-valued.  Cells of distinct kinds
are ordered by an arbitrary fixed rank; cells of the same kind by their
value.  Only homogeneous columns are ever sorted by the embedded code, so
the cross-kind order is never observable there. -/
def cellLeB : Cell → Cell → Bool
  | .null, _ => true
  | .num _, .null => false
  | .num a, .num b => a ≤ b
  | .num _, _ => true
  | .str _, .null => false
  | .str _, .num _ => false
  | .str a, .str b => charsLe a.data b.data
  | .str _, .dt _ => true
  | .dt a, .dt b => a ≤ b
  | .dt _, _ => false

/-- Propositional form of `cellLeB`, used as the sort relation. -/
def cellLe (a b : Cell) : Prop := cellLeB a b = true

instance : DecidableRel cellLe := fun a b => instDecidableEqBool (cellLeB a b) true

theorem cellLeB_total (a b : Cell) : cellLeB a b = true ∨ cellLeB b a = true := by
  cases a <;> cases b <;> simp [cellLeB] <;>
    first
      | exact le_total ..
      | exact charsLe_total ..

theorem cellLeB_trans {a b c : Cell} (hab : cellLeB a b = true)
    (hbc : cellLeB b c = true) : cellLeB a c = true := by
  cases a <;> cases b <;> cases c <;> simp_all [cellLeB] <;>
    first
      | exact le_trans hab hbc
      | exact charsLe_trans hab hbc

instance : IsTotal Cell cellLe := ⟨cellLeB_total⟩

instance : IsTrans Cell cellLe := ⟨fun _ _ _ => cellLeB_trans⟩

/-- Sort key relation between two rows: compare the cells in column `i`,
ascending or descending. -/
def rowLeAt (i : Nat) (ascending : Bool) (a b : List Cell) : Prop :=
  match ascending with
  | true => cellLe (a.getD i Cell.null) (b.getD i Cell.null)
  | false => cellLe (b.getD i Cell.null) (a.getD i Cell.null)

instance (i : Nat) (asc : Bool) : DecidableRel (rowLeAt i asc) := fun a b => by
  cases asc <;> exact inferInstanceAs (Decidable (cellLe _ _))

instance (i : Nat) (asc : Bool) : IsTotal (List Cell) (rowLeAt i asc) :=
  ⟨fun a b => by cases asc <;> exact cellLeB_total ..⟩

instance (i : Nat) (asc : Bool) : IsTrans (List Cell) (rowLeAt i asc) :=
  ⟨fun a b c hab hbc => by
    cases asc
    · exact cellLeB_trans hbc hab
    · exact cellLeB_trans hab hbc⟩

/-- Index of the first column named `name` (Python `col in df.columns` and
column selection both use exact name equality). -/
def colIdx (df : DataFrame) (name : String) : Option Nat :=
  df.cols.findIdx? (fun c => c.1 == name)

/-- Python `name in df.columns`. -/
def hasCol (df : DataFrame) (name : String) : Bool :=
  (colIdx df name).isSome

/-- `df.head(n)` for a plain non-negative count: the first `n` rows. -/
def DataFrame.head (df : DataFrame) (n : Nat) : DataFrame :=
  ⟨df.cols, df.rows.take n⟩

/-- `df.head(x)` where `x` came out of `dict.get` and may be Python `None`:
pandas `head` is `iloc[:n]`, so `head(None)` returns every row, and a
negative `n` drops `-n` rows from the end. -/
def headPy (n : Option Int) (df : DataFrame) : DataFrame :=
  match n with
  | none => df
  | some k =>
      if 0 ≤ k then ⟨df.cols, df.rows.take k.toNat⟩
      else ⟨df.cols, df.rows.take (df.rows.length - (-k).toNat)⟩

/-- Python truthiness of an optional string: `None` and `""` are falsy. -/
def pyTruthyS : Option String → Bool
  | none => false
  | some s => !(s == "")

/-- The declared type of column `i`, defaulting to text. -/
def colDType (df : DataFrame) (i : Nat) : DType :=
  ((df.cols.getD i ("", DType.text))).2

/-- The cell of row `r` in column `i`. -/
def cellAt (r : List Cell) (i : Nat) : Cell :=
  r.getD i Cell.null

/-- Entity-column resolution of `_extract_comparison` / `_extract_aggregation`:
the first column whose lowercased name contains the lowercased form of ANY
entity (`any(entity.lower() in col.lower() for entity in entities)`). -/
def resolveEntityCol (df : DataFrame) (entities : List String) : Option String :=
  (df.cols.find? (fun c =>
    entities.any (fun e => containsSub (strLower c.1) (strLower e)))).map (·.1)

/-- `metric_col = metrics[0] if metrics[0] in self.df.columns else None`. -/
def metricCol (df : DataFrame) (metrics : List String) : Option String :=
  match metrics with
  | [] => none
  | m :: _ => if hasCol df m then some m else none

/-- Date-column resolution of `_extract_trend`: one pass over the columns,
taking the first whose dtype is `datetime64[ns]` OR whose lowercased name
contains "date". -/
def findDateCol (df : DataFrame) : Option String :=
  (df.cols.find? (fun c =>
    decide (c.2 = DType.datetime) || containsSub (strLower c.1) "date")).map (·.1)

/-- The distinct non-null keys of column `i`: pandas `groupby` drops null
keys (`dropna=True`) and sorts the group keys ascending (`sort=True`). -/
def distinctKeys (df : DataFrame) (i : Nat) : List Cell :=
  List.insertionSort cellLe
    (((df.rows.map (fun r => cellAt r i)).filter
        (fun c => decide (c ≠ Cell.null))).dedup)

/-- The rows of the group with key `k` in column `i`. -/
def groupRows (df : DataFrame) (i : Nat) (k : Cell) : List (List Cell) :=
  df.rows.filter (fun r => decide (cellAt r i = k))

/-- The non-null cells of column `i` over the given rows (pandas `skipna`
reductions operate on these). -/
def nonNullVals (rows : List (List Cell)) (i : Nat) : List Cell :=
  (rows.map (fun r => cellAt r i)).filter (fun c => decide (c ≠ Cell.null))

/-- pandas `Series.sum()`: sum of the numeric content, nulls skipped. -/
def sumQ (cs : List Cell) : ℚ :=
  (cs.map Cell.toQ).sum

/-- pandas `Series.mean()`: null when no non-null value exists. -/
def meanCell (cs : List Cell) : Cell :=
  if cs.isEmpty then Cell.null else Cell.num (sumQ cs / cs.length)

/-- pandas `Series.max()` over a numeric column. -/
def maxCell (cs : List Cell) : Cell :=
  match cs.map Cell.toQ with
  | [] => Cell.null
  | x :: xs => Cell.num (xs.foldl max x)

/-- pandas `Series.min()` over a numeric column. -/
def minCell (cs : List Cell) : Cell :=
  match cs.map Cell.toQ with
  | [] => Cell.null
  | x :: xs => Cell.num (xs.foldl min x)

/-- pandas linear-interpolation quantile over the non-null values. -/
def quantileCell (cs : List Cell) (p : ℚ) : Cell :=
  let s := List.insertionSort (· ≤ ·) (cs.map Cell.toQ)
  match s.length with
  | 0 => Cell.null
  | Nat.succ m =>
      let pos : ℚ := p * m
      let i : Nat := (Rat.floor pos).toNat
      let frac : ℚ := pos - i
      let lo := s.getD i 0
      let hi := s.getD (min (i + 1) m) 0
      Cell.num (lo + frac * (hi - lo))

/-- The aggregation attributes of a pandas `SeriesGroupBy` that this
development models (the spec vocabulary is sum/avg/max/min/count; `avg` is
NOT a pandas method, while `mean` and `median` are). -/
inductive AggMethod where
  | sum | mean | max | min | count | median
deriving DecidableEq, Repr

/-- `getattr(groupby_object, name, ...)` restricted to the aggregation
attributes above: returns `none` exactly when the name is not an attribute
of the pandas object, in which case `getattr` falls back to its default.
Other genuine pandas attributes (std, var, first, ...) are outside the
vocabulary the spec and the claims exercise and are not modelled. -/
def seriesGroupByMethod (name : String) : Option AggMethod :=
  if name == "sum" then some .sum
  else if name == "mean" then some .mean
  else if name == "max" then some .max
  else if name == "min" then some .min
  else if name == "count" then some .count
  else if name == "median" then some .median
  else none

/-- Apply one aggregation method to the metric values of one group. -/
def applyAggMethod (m : AggMethod) (df : DataFrame) (ei mi : Nat) (k : Cell) : Cell :=
  let vals := nonNullVals (groupRows df ei k) mi
  match m with
  | .sum => Cell.num (sumQ vals)
  | .mean => meanCell vals
  | .max => maxCell vals
  | .min => minCell vals
  | .count => Cell.num vals.length
  | .median => quantileCell vals (1/2)

/-- `df.groupby(entity_col)[metric_col].agg().reset_index()`: one row per
distinct non-null key (keys ascending, the pandas default), the aggregated
metric beside it. -/
def groupbyAgg (df : DataFrame) (ec mc : String) (m : AggMethod) : DataFrame :=
  match colIdx df ec, colIdx df mc with
  | some ei, some mi =>
      ⟨[(ec, colDType df ei), (mc, DType.numeric)],
        (distinctKeys df ei).map (fun k => [k, applyAggMethod m df ei mi k])⟩
  | _, _ => df

/-- `df.sort_values(col, ascending)`: sort the rows by the cell in `col`.
If the column is missing the frame is returned unchanged (the embedded code
only sorts by columns it just built). -/
def sortValues (df : DataFrame) (col : String) (ascending : Bool) : DataFrame :=
  match colIdx df col with
  | some i => ⟨df.cols, List.insertionSort (rowLeAt i ascending) df.rows⟩
  | none => df

/-- Elementwise equality `series == value` as pandas evaluates it inside
`result[result[col] == value]`: a null cell (NaN) compares unequal to
everything, including another null. -/
def cellEqPy : Cell → Cell → Bool
  | .null, _ => false
  | _, .null => false
  | a, b => a == b

/-!
## QueryIntent  (`src/src/agents/query_agent.py`, consumed as a dict)

`DataExtractionAgent.extract_by_intent` receives the intent as a Python
dict.  Fields read through `dict.get` with a default are modelled so that
the absent-key case and the present-but-`None` case can be told apart where
the code treats them differently:

* `limit`: `Option (Option Int)` — outer `none` is an absent key (so
  `intent.get('limit', 100)` yields 100), `some none` is a present `None`
  (so `get` yields `None` and `head(None)` keeps every row).
* `aggregation`: likewise; `getattr(gb, None, 'sum')` raises `TypeError`
  before consulting the default, while an absent key yields `'sum'`.
* `entities`, `metrics`, `filters`, `sort_by`, `query_type` behave
  identically for absent and `None` values on every path the code takes,
  so they are flattened (`None` ≡ empty / absent).  A non-dict `filters`
  value is outside the model.
-/

structure QueryIntent where
  query_type : String
  entities : List String
  metrics : List String
  filters : List (String × Cell)
  aggregation : Option (Option String)
  sort_by : Option String
  limit : Option (Option Int)
deriving DecidableEq, Repr

/-- `intent.get('limit', 100)`. -/
def pyGetLimit : Option (Option Int) → Option Int
  | none => some 100
  | some v => v

/-!
## DataExtractionAgent  (`src/src/agents/extraction_agent.py`)

The agent object carries the registered frame and the `last_query` /
`last_result` attributes.  The extraction strategies below never assign to
any of these attributes in the source (`_extract_filtered` explicitly works
on `self.df.copy()`, the other strategies only read `self.df`), so each is
embedded as a function of the frame; `extract_by_intent` threads the agent
state explicitly to make that absence of mutation a provable statement.
-/

structure AgentSt where
  df : DataFrame
  last_query : Option String
  last_result : Option DataFrame
deriving Repr

/-- `DataExtractionAgent.execute_sql`: runs the query on the tabular-engine
collaborator.  The attribute assignments sit AFTER the only raising call,
so on failure the exception propagates with the agent state untouched. -/
def execute_sql (engine : String → Except String DataFrame)
    (sql_query : String) (st : AgentSt) : AgentSt × Except String DataFrame :=
  match engine sql_query with
  | .ok result =>
      ({ st with last_query := some sql_query, last_result := some result }, .ok result)
  | .error e => (st, .error e)

/-- `_extract_summary`, metrics given: one row of per-metric
total/avg/max/min over the metrics that name columns. -/
def summaryWithMetrics (df : DataFrame) (metrics : List String) : DataFrame :=
  let ms := metrics.filter (fun m => hasCol df m)
  { cols := ms.flatMap (fun m =>
      [(m ++ "_total", DType.numeric), (m ++ "_avg", DType.numeric),
       (m ++ "_max", DType.numeric), (m ++ "_min", DType.numeric)]),
    rows :=
      if ms.isEmpty then []
      else [ms.flatMap (fun m =>
        let i := (colIdx df m).getD 0
        let vals := nonNullVals df.rows i
        [Cell.num (sumQ vals), meanCell vals, maxCell vals, minCell vals])] }

/-- `df.describe()` over the numeric columns: the eight statistic rows
count / mean / std / min / 25% / 50% / 75% / max.  The sample standard
deviation is an irrational real and is outside the rational cell model, so
its row carries nulls; no claim depends on any entry of this table. -/
def describeNumeric (df : DataFrame) : DataFrame :=
  let ncols := df.cols.filter (fun c => decide (c.2 = DType.numeric))
  let stat := fun (f : List Cell → Cell) =>
    ncols.map (fun c => f (nonNullVals df.rows ((colIdx df c.1).getD 0)))
  { cols := ncols,
    rows := [stat (fun v => Cell.num v.length), stat meanCell,
             stat (fun _ => Cell.null), stat minCell,
             stat (fun v => quantileCell v (1/4)), stat (fun v => quantileCell v (1/2)),
             stat (fun v => quantileCell v (3/4)), stat maxCell] }

/-- `_extract_summary`. -/
def extract_summary (df : DataFrame) (intent : QueryIntent) : DataFrame :=
  if intent.metrics.isEmpty then describeNumeric df
  else summaryWithMetrics df intent.metrics

/-- `_extract_comparison`: resolve an entity column by substring match of
any entity, group by it, sum the first metric, sort descending by the sum;
every unresolved case falls back to the first ten rows. -/
def extract_comparison (df : DataFrame) (intent : QueryIntent) : DataFrame :=
  if intent.entities.isEmpty || intent.metrics.isEmpty then df.head 10
  else
    let ec := resolveEntityCol df intent.entities
    if pyTruthyS ec = false then df.head 10
    else
      let mc := metricCol df intent.metrics
      if pyTruthyS mc = false then df.head 10
      else sortValues (groupbyAgg df (ec.getD "") (mc.getD "") .sum) (mc.getD "") false

/-- `_extract_trend`: one pass finds the first column that is
datetime-typed or has "date" in its name; group by it, sum the first
metric, sort ascending by the date column. -/
def extract_trend (df : DataFrame) (intent : QueryIntent) : DataFrame :=
  let dc := findDateCol df
  if pyTruthyS dc = false || intent.metrics.isEmpty then df.head 10
  else
    let mc := metricCol df intent.metrics
    if pyTruthyS mc = false then df.head 10
    else sortValues (groupbyAgg df (dc.getD "") (mc.getD "") .sum) (dc.getD "") true

/-- The equality-filter fold of `_extract_filtered`: filters are applied in
the order given, skipping filters whose column does not exist. -/
def applyFilters (df : DataFrame) : List (String × Cell) → DataFrame
  | [] => df
  | (c, v) :: rest =>
      let df1 :=
        match colIdx df c with
        | some i =>
            ({ cols := df.cols,
               rows := df.rows.filter (fun r => cellEqPy (cellAt r i) v) } : DataFrame)
        | none => df
      applyFilters df1 rest

/-- `_extract_filtered`: apply the filters to a copy of the frame, then
truncate by `intent.get('limit', 100)`. -/
def extract_filtered (df : DataFrame) (intent : QueryIntent) : DataFrame :=
  headPy (pyGetLimit intent.limit) (applyFilters df intent.filters)

/-- `_extract_aggregation`.  `agg_func = getattr(gb, aggregation, 'sum')`
uses the STRING `'sum'` as the `getattr` default, so when `aggregation`
does not name an attribute of the pandas groupby object the subsequent
`agg_func()` call raises `TypeError: str object is not callable`; a
present-but-`None` aggregation makes `getattr` itself raise. -/
def extract_aggregation (df : DataFrame) (intent : QueryIntent) :
    Except String DataFrame :=
  if intent.entities.isEmpty || intent.metrics.isEmpty then .ok (df.head 10)
  else
    let ec := resolveEntityCol df intent.entities
    if pyTruthyS ec = false then .ok (df.head 10)
    else
      let mc := metricCol df intent.metrics
      if pyTruthyS mc = false then .ok (df.head 10)
      else
        match intent.aggregation with
        | some none => .error "TypeError: attribute name must be string"
        | aggField =>
          let aggName := (aggField.getD (some "sum")).getD "sum"
          match seriesGroupByMethod aggName with
          | none => .error "TypeError: str object is not callable"
          | some m =>
            let result := groupbyAgg df (ec.getD "") (mc.getD "") m
            let result :=
              match intent.sort_by with
              | some s => if !(s == "") then
                            (if hasCol result s then sortValues result s false else result)
                          else result
              | none => result
            .ok (headPy (pyGetLimit intent.limit) result)

/-- `DataExtractionAgent.extract_by_intent`: dispatch on `query_type`,
with the first-ten-rows fallback for unrecognized types.  The agent state
is threaded explicitly and returned by every branch exactly as the source
leaves it (no attribute of `self` is assigned anywhere in the call tree). -/
def extract_by_intent (st : AgentSt) (intent : QueryIntent) :
    AgentSt × Except String DataFrame :=
  let qt := intent.query_type
  if qt == "summary" then (st, .ok (extract_summary st.df intent))
  else if qt == "comparison" then (st, .ok (extract_comparison st.df intent))
  else if qt == "trend" then (st, .ok (extract_trend st.df intent))
  else if qt == "filter" then (st, .ok (extract_filtered st.df intent))
  else if qt == "aggregation" then (st, extract_aggregation st.df intent)
  else (st, .ok (st.df.head 10))

/-!
## ValidationAgent  (`src/src/agents/validation_agent.py`)
-/

/-- The dictionary `validate_result` returns. -/
structure ValidationOut where
  is_valid : Bool
  confidence : ℚ
  issues : List String
  suggestions : List String
  quality_score : ℚ
  row_count : Nat
  column_count : Nat
deriving DecidableEq, Repr

/-- Whether some cell of the frame is null (`result.isnull().sum()` summed
over columns is positive). -/
def hasNullCell (df : DataFrame) : Bool :=
  df.rows.any (fun r => r.any (fun c => decide (c = Cell.null)))

/-- The names of the columns that contain a null, standing in for the
`{col: count}` dict rendered into the issue message. -/
def nullColNames (df : DataFrame) : String :=
  String.intercalate ", "
    ((df.cols.map (·.1)).enum.filterMap (fun ci =>
      if df.rows.any (fun r => decide (cellAt r ci.1 = Cell.null))
      then some ci.2 else none))

/-- Number of duplicate rows:
`len(result) - len(result.drop_duplicates())`. -/
def dupCount (df : DataFrame) : Nat :=
  df.rows.length - df.rows.dedup.length

/-- The deterministic checks at the top of `validate_result`, run before
the LLM call: emptiness, null values, duplicate rows, appended in that
order to the issue and suggestion lists. -/
def detChecks (result : DataFrame) : List String × List String :=
  let p1 :=
    if result.rows.length = 0 then
      (["Result is empty - no data returned"],
       ["Review query filters or check if data exists for the criteria"])
    else ([], [])
  let p2 :=
    if hasNullCell result then
      (["Null values found in columns: " ++ nullColNames result],
       ["Consider handling null values or filtering them out"])
    else ([], [])
  let p3 :=
    if dupCount result ≠ 0 then
      (["Found " ++ toString (dupCount result) ++ " duplicate rows"],
       ["Consider removing duplicates or adding DISTINCT to query"])
    else ([], [])
  (p1.1 ++ p2.1 ++ p3.1, p1.2 ++ p2.2 ++ p3.2)

/-- The number of deterministic issues found. -/
def detIssueCount (result : DataFrame) : Nat :=
  (detChecks result).1.length

/-- `ValidationAgent.validate_result`.  The LLM collaborator is the oracle
`llm`: `some text` is a successful free-text reply, `none` a provider
error.  The failure is caught INSIDE this method, so it never raises: on
success validity is the affirmative-marker scan OR-ed with a zero issue
count and confidence is `clamp(1 - 0.2*issues, 0, 1)`; on failure validity
is the zero issue count alone and confidence is 0.7 / 0.3. -/
def validate_result (llm : Option String) (_question _sql_query : String)
    (result : DataFrame) : ValidationOut :=
  let checks := detChecks result
  let issues := checks.1
  let suggestions := checks.2
  match llm with
  | some validation_text =>
      let is_valid :=
        containsSub (strLower validation_text) "is_valid: true" || issues.length == 0
      let confidence : ℚ := 1 - (issues.length : ℚ) * (1/5)
      let confidence := max 0 (min 1 confidence)
      { is_valid, confidence, issues, suggestions,
        quality_score := confidence,
        row_count := result.rows.length, column_count := result.cols.length }
  | none =>
      let is_valid := issues.length == 0
      let confidence : ℚ := if is_valid then 7/10 else 3/10
      { is_valid, confidence, issues, suggestions,
        quality_score := confidence,
        row_count := result.rows.length, column_count := result.cols.length }

/-!
## SynthesisAgent  (`src/src/agents/synthesis_agent.py`)

Only the parts the orchestrator reaches are embedded: `generate_summary`
and its deterministic fallback.  The prompt-side digests
(`_create_data_summary`, `_format_validation`) only feed the LLM prompt and
do not influence the returned value, so they are not reproduced; decimal
formatting inside the fallback text is abstracted by `toString`.
-/

/-- Rendering of a cell inside fallback text (string formatting
abstracted). -/
def Cell.render : Cell → String
  | .null => "NaN"
  | .num q => toString q
  | .str s => s
  | .dt t => toString t

/-- A plain-text rendering of a frame, standing in for
`df.to_string(index=False)`. -/
def dfRender (df : DataFrame) : String :=
  String.intercalate "\n"
    (df.rows.map (fun r => String.intercalate " " (r.map Cell.render)))

/-- `SynthesisAgent._fallback_summary`: the deterministic templated summary
used when the LLM collaborator fails (record count, sample rows and
per-numeric-column total/average; the validation argument is unused by the
source).  Exact literal wording is abridged where Python uses f-string
number formatting. -/
def fallback_summary (question : String) (data : DataFrame)
    (_validation : Option ValidationOut) : String :=
  "Analysis Results for: " ++ question ++
  "\n\nData Summary:\n  - Total records: " ++ toString data.rows.length ++
  "\n  - Columns: " ++ String.intercalate ", " (data.cols.map (·.1)) ++ "\n" ++
  (if data.rows.length > 0 then
    "\nSample Data:\n" ++ dfRender (data.head 5) ++ "\n" ++
    (let ncols := data.cols.filter (fun c => decide (c.2 = DType.numeric))
     if ncols.length > 0 then
       "\nKey Statistics:\n" ++ String.intercalate "\n"
         (ncols.map (fun c =>
            let vals := nonNullVals data.rows ((colIdx data c.1).getD 0)
            "  " ++ c.1 ++ ": Total = " ++ toString (sumQ vals) ++
            ", Average = " ++ (meanCell vals).render))
     else "")
   else "")

/-- `SynthesisAgent.generate_summary`: the LLM reply on success, the
deterministic fallback on provider failure — caught INSIDE the agent, so
this never raises. -/
def generate_summary (llm : Option String) (question : String)
    (data : DataFrame) (validation : Option ValidationOut) : String :=
  match llm with
  | some content => content
  | none => fallback_summary question data validation

/-!
## QueryResolutionAgent  (`src/src/agents/query_agent.py`)
-/

/-- The deterministic default intent `resolve_query` builds when the LLM
call or the structured parse fails.  A pydantic model rendered through
`.dict()` carries every key, the unset optional ones as `None`. -/
def defaultIntent : QueryIntent :=
  { query_type := "summary", entities := [], metrics := [], filters := [],
    aggregation := some none, sort_by := none, limit := some none }

/-- `QueryResolutionAgent.resolve_query`: never raises; provider failure
yields the default intent. -/
def resolve_query (llm : Option QueryIntent) : QueryIntent :=
  llm.getD defaultIntent

/-- The Markdown code-fence stripping of `generate_sql`:
`strip`, take the segment after the first triple backtick, drop a leading
"sql", `strip` again. -/
def charsTrim (l : List Char) : List Char :=
  ((l.dropWhile Char.isWhitespace).reverse.dropWhile Char.isWhitespace).reverse

/-- The characters of `l` before the first occurrence of `sep`. -/
def charsBeforeSep (sep : List Char) : List Char → List Char
  | [] => []
  | c :: rest =>
      if charsHasPre sep (c :: rest) then []
      else c :: charsBeforeSep sep rest

/-- The characters of `l` after the first occurrence of `sep` (everything
when `sep` does not occur). -/
def charsAfterSep (sep : List Char) : List Char → List Char
  | [] => []
  | c :: rest =>
      if charsHasPre sep (c :: rest) then (c :: rest).drop sep.length
      else charsAfterSep sep rest

def cleanSql (content : String) : String :=
  let sql := charsTrim content.data
  if charsHasPre "```".data sql then
    let sql := charsBeforeSep "```".data (charsAfterSep "```".data sql)
    let sql := if charsHasPre "sql".data sql then sql.drop 3 else sql
    String.mk (charsTrim sql)
  else String.mk sql

/-- `QueryResolutionAgent.generate_sql`: never raises; provider failure
yields the deterministic default query. -/
def generate_sql (llm : Option String) (table_name : String) : String :=
  match llm with
  | some content => cleanSql content
  | none => "SELECT * FROM " ++ table_name ++ " LIMIT 10"

/-!
## RetailInsightsOrchestrator  (`src/src/agents/orchestrator.py`)

One run of the compiled LangGraph line is the sequential composition of the
four node functions over the shared `AgentState` record.  The collaborators
a run can touch are gathered in `Oracles`; `none` / `.error` is a provider
failure of that call.

Where a node wraps an agent call in `try/except`, the except arm is
modelled only when the call can actually raise: `resolve_query`,
`generate_sql`, `validate_result` and `generate_summary` all catch the
collaborator failure internally and return a degraded value, so the
node-level handlers of `_query_resolution_node`, `_validation_node` and
`_synthesis_node` (which would set `state.error` and, for validation, a
synthetic all-zero result) are unreachable for collaborator failures and
have no image in the model.  `_data_extraction_node` is the one node whose
callee (`execute_sql`) re-raises, so its except arm is embedded.
-/

structure Oracles where
  resolveLLM : Option QueryIntent
  sqlLLM : Option String
  engine : String → Except String DataFrame
  validateLLM : Option String
  synthLLM : Option String

/-- The `AgentState` record of the state graph.  The dict fields start as
empty dicts, modelled by `none`; `messages` is the append-only trace
(LangGraph concatenates the one-element lists each node emits). -/
structure PipelineState where
  question : String
  query_intent : Option QueryIntent
  sql_query : String
  extracted_data : DataFrame
  validation_result : Option ValidationOut
  final_answer : String
  messages : List String
  error : String

/-- The frame of no columns and no rows (`pd.DataFrame()`). -/
def emptyDF : DataFrame := ⟨[], []⟩

/-- The fresh state `process_query` builds for a question. -/
def initialState (question : String) : PipelineState :=
  { question, query_intent := none, sql_query := "",
    extracted_data := emptyDF, validation_result := none,
    final_answer := "", messages := [], error := "" }

/-- `_query_resolution_node`: resolve the intent and generate SQL, then
record both. -/
def query_resolution_node (o : Oracles) (st : PipelineState) : PipelineState :=
  let intent := resolve_query o.resolveLLM
  let sql := generate_sql o.sqlLLM "sales_data"
  { st with query_intent := some intent, sql_query := sql,
            messages := st.messages ++ ["Query resolved: " ++ intent.query_type] }

/-- `_data_extraction_node`: raise when no SQL was generated, else execute
it; on either failure record the error and pass an empty frame forward. -/
def data_extraction_node (o : Oracles) (st : PipelineState) : PipelineState :=
  if st.sql_query == "" then
    { st with error := "Data extraction failed: No SQL query generated",
              messages := st.messages ++
                ["Error in data extraction: No SQL query generated"],
              extracted_data := emptyDF }
  else
    match o.engine st.sql_query with
    | .ok result =>
        { st with extracted_data := result,
                  messages := st.messages ++
                    ["Extracted " ++ toString result.rows.length ++ " rows"] }
    | .error e =>
        { st with error := "Data extraction failed: " ++ e,
                  messages := st.messages ++ ["Error in data extraction: " ++ e],
                  extracted_data := emptyDF }

/-- `_validation_node`: `validate_result` is total, so the node always
records its result. -/
def validation_node (o : Oracles) (st : PipelineState) : PipelineState :=
  let v := validate_result o.validateLLM st.question st.sql_query st.extracted_data
  { st with validation_result := some v,
            messages := st.messages ++
              ["Validation complete: Valid=" ++ toString v.is_valid ++
               ", Quality=" ++ toString v.quality_score] }

/-- `_synthesis_node`: a fixed apology for an empty frame, otherwise the
synthesis agent (which falls back internally on LLM failure). -/
def synthesis_node (o : Oracles) (st : PipelineState) : PipelineState :=
  let answer :=
    if st.extracted_data.rows.length > 0 then
      generate_summary o.synthLLM st.question st.extracted_data st.validation_result
    else
      "I could not find any data to answer your question. Please try rephrasing or check if the data exists."
  { st with final_answer := answer,
            messages := st.messages ++ ["Answer generated successfully"] }

/-- The public projection `process_query` returns. -/
structure PipelineResponse where
  question : String
  answer : String
  data : DataFrame
  validation : Option ValidationOut
  sql_query : String
  messages : List String
  error : String

/-- `RetailInsightsOrchestrator.process_query`: drive the four stages over
a fresh state and project the response.  Every node function is total, so
the top-level except arm (answer = fault message) is unreachable and has no
image in the model; the `final_state.get` defaults are likewise dead
because every projected key is always written. -/
def process_query (o : Oracles) (question : String) : PipelineResponse :=
  let st := synthesis_node o (validation_node o
              (data_extraction_node o (query_resolution_node o (initialState question))))
  { question, answer := st.final_answer, data := st.extracted_data,
    validation := st.validation_result, sql_query := st.sql_query,
    messages := st.messages, error := st.error }

/-- Whether the extraction stage of a run with oracles `o` succeeds: the
generated SQL is non-empty and the tabular engine accepts it.  This is the
one stage whose failure writes `state.error`. -/
def extractionOk (o : Oracles) : Bool :=
  !(generate_sql o.sqlLLM "sales_data" == "") &&
    (match o.engine (generate_sql o.sqlLLM "sales_data") with
     | .ok _ => true
     | .error _ => false)

instance : DecidableEq (Except String DataFrame) := fun a b =>
  match a, b with
  | .ok x, .ok y => decidable_of_iff (x = y) (by simp)
  | .error x, .error y => decidable_of_iff (x = y) (by simp)
  | .ok _, .error _ => isFalse (by simp)
  | .error _, .ok _ => isFalse (by simp)

/-- The recognized query types of `extract_by_intent`. -/
def isKnownQueryType (qt : String) : Bool :=
  qt == "summary" || qt == "comparison" || qt == "trend" ||
  qt == "filter" || qt == "aggregation"


theorem resolveEntityCol_nil (df : DataFrame) : resolveEntityCol df [] = none := by
  simp [resolveEntityCol, List.find?_eq_none]

theorem sortValues_cols (df : DataFrame) (col : String) (asc : Bool) :
    (sortValues df col asc).cols = df.cols := by
  unfold sortValues
  cases colIdx df col <;> rfl

theorem sortValues_rows_perm (df : DataFrame) (col : String) (asc : Bool) :
    (sortValues df col asc).rows.Perm df.rows := by
  unfold sortValues
  cases h : colIdx df col with
  | none => exact List.Perm.refl _
  | some i => exact List.perm_insertionSort _ _

theorem sortValues_sorted (df : DataFrame) (col : String) (asc : Bool) (i : Nat)
    (h : colIdx df col = some i) :
    List.Sorted (rowLeAt i asc) (sortValues df col asc).rows := by
  simp only [sortValues, h]
  exact List.sorted_insertionSort _ _

theorem groupbyAgg_rows (df : DataFrame) (ec mc : String) (m : AggMethod)
    (ei mi : Nat) (hec : colIdx df ec = some ei) (hmc : colIdx df mc = some mi) :
    (groupbyAgg df ec mc m).rows
      = (distinctKeys df ei).map (fun k => [k, applyAggMethod m df ei mi k]) := by
  simp [groupbyAgg, hec, hmc]

theorem groupbyAgg_cols (df : DataFrame) (ec mc : String) (m : AggMethod)
    (ei mi : Nat) (hec : colIdx df ec = some ei) (hmc : colIdx df mc = some mi) :
    (groupbyAgg df ec mc m).cols = [(ec, colDType df ei), (mc, DType.numeric)] := by
  simp [groupbyAgg, hec, hmc]

theorem colIdx_grouped_fst (df : DataFrame) (ec mc : String) (m : AggMethod)
    (ei mi : Nat) (hec : colIdx df ec = some ei) (hmc : colIdx df mc = some mi) :
    colIdx (groupbyAgg df ec mc m) ec = some 0 := by
  rw [colIdx, groupbyAgg_cols df ec mc m ei mi hec hmc]
  simp

theorem colIdx_grouped_snd (df : DataFrame) (ec mc : String) (m : AggMethod)
    (ei mi : Nat) (hec : colIdx df ec = some ei) (hmc : colIdx df mc = some mi)
    (hne : mc ≠ ec) :
    colIdx (groupbyAgg df ec mc m) mc = some 1 := by
  rw [colIdx, groupbyAgg_cols df ec mc m ei mi hec hmc]
  simp [List.findIdx?_cons, beq_iff_eq, Ne.symm hne]

/-- Shape of a grouped-and-sorted extraction result: one row per distinct
non-null key of the entity column, each row carrying the key and the
aggregated metric, sorted by the requested column. -/
theorem grouped_sorted_spec (df : DataFrame) (ec mc : String) (m : AggMethod)
    (asc : Bool) (sortCol : String) (si ei mi : Nat)
    (hec : colIdx df ec = some ei) (hmc : colIdx df mc = some mi)
    (hsi : colIdx (groupbyAgg df ec mc m) sortCol = some si) :
    (sortValues (groupbyAgg df ec mc m) sortCol asc).rows.length
        = (distinctKeys df ei).length ∧
    (∀ row ∈ (sortValues (groupbyAgg df ec mc m) sortCol asc).rows,
        ∃ k ∈ distinctKeys df ei, row = [k, applyAggMethod m df ei mi k]) ∧
    List.Sorted (rowLeAt si asc) (sortValues (groupbyAgg df ec mc m) sortCol asc).rows := by
  have hperm := sortValues_rows_perm (groupbyAgg df ec mc m) sortCol asc
  have hg := groupbyAgg_rows df ec mc m ei mi hec hmc
  refine ⟨?_, ?_, ?_⟩
  · rw [hperm.length_eq, hg, List.length_map]
  · intro row hrow
    have hmem : row ∈ (groupbyAgg df ec mc m).rows := hperm.mem_iff.mp hrow
    rw [hg] at hmem
    obtain ⟨k, hk, rfl⟩ := List.mem_map.mp hmem
    exact ⟨k, hk, rfl⟩
  · exact sortValues_sorted _ _ _ _ hsi

/-!
## Concrete fixtures used by witnesses and counterexamples
-/

/-- One run of the pipeline, written out: the generated SQL, the extracted
frame and the recorded error as functions of the oracles, all four trace
messages, and the validation result over whatever frame extraction
produced. -/
theorem process_query_eq (o : Oracles) (q : String) :
    process_query o q =
      (let sql := generate_sql o.sqlLLM "sales_data"
       let intent := resolve_query o.resolveLLM
       let data : DataFrame :=
         if sql == "" then emptyDF
         else match o.engine sql with
           | .ok r => r
           | .error _ => emptyDF
       let err : String :=
         if sql == "" then "Data extraction failed: No SQL query generated"
         else match o.engine sql with
           | .ok _ => ""
           | .error e => "Data extraction failed: " ++ e
       let exmsg : String :=
         if sql == "" then "Error in data extraction: No SQL query generated"
         else match o.engine sql with
           | .ok r => "Extracted " ++ toString r.rows.length ++ " rows"
           | .error e => "Error in data extraction: " ++ e
       let v := validate_result o.validateLLM q sql data
       let answer :=
         if data.rows.length > 0 then generate_summary o.synthLLM q data (some v)
         else "I could not find any data to answer your question. Please try rephrasing or check if the data exists."
       { question := q, answer := answer, data := data, validation := some v,
         sql_query := sql,
         messages := ["Query resolved: " ++ intent.query_type, exmsg,
                      "Validation complete: Valid=" ++ toString v.is_valid ++
                        ", Quality=" ++ toString v.quality_score,
                      "Answer generated successfully"],
         error := err }) := by
  unfold process_query synthesis_node validation_node data_extraction_node
    query_resolution_node initialState
  by_cases hsql : (generate_sql o.sqlLLM "sales_data" == "") = true
  · simp [hsql]
  · simp only [Bool.not_eq_true] at hsql
    cases heng : o.engine (generate_sql o.sqlLLM "sales_data") <;> simp [hsql, heng]

theorem append_ne_empty_left (s t : String) (hs : s.data ≠ []) : s ++ t ≠ "" := by
  intro h
  have hd : (s ++ t).data = [] := congrArg String.data h
  rw [String.data_append] at hd
  exact hs (List.append_eq_nil.mp hd).1

theorem fallback_summary_ne_empty (q : String) (d : DataFrame)
    (v : Option ValidationOut) : fallback_summary q d v ≠ "" := by
  intro h
  have hlen := congrArg String.length h
  unfold fallback_summary at hlen
  simp only [String.length_append] at hlen
  have h22 : ("Analysis Results for: " : String).length = 22 := by decide
  have h0 : ("" : String).length = 0 := by decide
  rw [h22, h0] at hlen
  omega

theorem fallback_summary_shape (q : String) (d : DataFrame)
    (v : Option ValidationOut) :
    ∃ rest, fallback_summary q d v = "Analysis Results for: " ++ rest :=
  ⟨_, by
    unfold fallback_summary
    rw [String.append_assoc, String.append_assoc, String.append_assoc,
        String.append_assoc, String.append_assoc, String.append_assoc]⟩

/-- The answer the synthesis node records is never the empty string when a
successful synthesis reply is itself non-empty. -/
theorem synthesis_answer_ne_empty (llm : Option String) (q : String)
    (d : DataFrame) (v : Option ValidationOut)
    (hs : ∀ s, llm = some s → s ≠ "") :
    (if d.rows.length > 0 then generate_summary llm q d v
     else "I could not find any data to answer your question. Please try rephrasing or check if the data exists.") ≠ "" := by
  split_ifs with hd
  · cases hsyn : llm with
    | none => simpa [generate_summary, hsyn] using fallback_summary_ne_empty q d v
    | some s => simpa [generate_summary, hsyn] using hs s hsyn
  · decide

/-- With a failed validation LLM the returned confidence is 0.7 or 0.3 and
the quality score tracks it. -/
theorem validate_result_llm_none_conf (q sql : String) (d : DataFrame) :
    ((validate_result none q sql d).confidence = 7/10 ∨
        (validate_result none q sql d).confidence = 3/10) ∧
    (validate_result none q sql d).quality_score
        = (validate_result none q sql d).confidence := by
  constructor
  · by_cases hb : (((detChecks d).1.length == 0) = true)
    · left
      simp [validate_result, hb]
    · right
      simp only [Bool.not_eq_true] at hb
      simp [validate_result, hb]
  · rfl

/-- A small region/sales dataset with two distinct regions. -/
def dfRS : DataFrame :=
  ⟨[("Region", DType.text), ("Sales", DType.numeric)],
   [[Cell.str "North", Cell.num 100],
    [Cell.str "South", Cell.num 50],
    [Cell.str "North", Cell.num 30]]⟩

/-- An extraction agent holding `dfRS`. -/
def stRS : AgentSt := ⟨dfRS, none, none⟩

/-- A comparison intent whose FIRST entity matches no column while the
second does. -/
def intentCmpAnyEntity : QueryIntent :=
  ⟨"comparison", ["Zzz", "Region"], ["Sales"], [], none, none, none⟩

/-- The comparison intent of the spec example. -/
def intentCmpRegionSales : QueryIntent :=
  ⟨"comparison", ["Region"], ["Sales"], [], none, none, none⟩

/-- An aggregation intent asking for the spec-listed method `avg`. -/
def intentAggAvg : QueryIntent :=
  ⟨"aggregation", ["Region"], ["Sales"], [], some (some "avg"), none, none⟩

/-- An intent whose query type none of the strategies recognize. -/
def intentUnknownQt : QueryIntent := ⟨"drilldown", [], [], [], none, none, none⟩

/-- A comparison intent whose entity resolves no column of `dfRS`. -/
def intentCmpNoEnt : QueryIntent := ⟨"comparison", ["Zzz"], ["Sales"], [], none, none, none⟩

/-- A trend intent over `dfRS`, which has no date column. -/
def intentTrendNoDate : QueryIntent := ⟨"trend", [], ["Sales"], [], none, none, none⟩

/-- An aggregation intent whose first metric is not a column of `dfRS`. -/
def intentAggNoMetric : QueryIntent := ⟨"aggregation", ["Region"], ["Qty"], [], none, none, none⟩

/-- A category/sales dataset for the filter example. -/
def dfCat : DataFrame :=
  ⟨[("Category", DType.text), ("Sales", DType.numeric)],
   [[Cell.str "Electronics", Cell.num 10],
    [Cell.str "Clothing", Cell.num 20],
    [Cell.str "Electronics", Cell.num 30]]⟩

/-- An extraction agent holding `dfCat`. -/
def stCat : AgentSt := ⟨dfCat, none, none⟩

/-- The filter intent of the spec example. -/
def intentFilterElec : QueryIntent :=
  ⟨"filter", [], [], [("Category", Cell.str "Electronics")], none, none, some (some 5)⟩

/-- A single-column numeric frame with 150 rows. -/
def dfN150 : DataFrame :=
  ⟨[("n", DType.numeric)], (List.range 150).map (fun i : Nat => [Cell.num (i : ℚ)])⟩

/-- A filter intent carrying the limit key with the value Python `None`
(exactly what `QueryIntent(...).dict()` produces when no limit was set). -/
def intentFilterLimitNone : QueryIntent :=
  ⟨"filter", [], [], [], none, none, some none⟩

/-!
## Claims
-/

/-- C9: `executeSQL` is atomic on failure — when the engine raises, the
recorded `last_query` and `last_result` are exactly what they were before
the call; on success they become the executed query and its result. -/
theorem C9_execute_sql_atomic (engine : String → Except String DataFrame)
    (sql_query : String) (st : AgentSt) :
    (∀ e, engine sql_query = .error e → (execute_sql engine sql_query st).1 = st) ∧
    (∀ r, engine sql_query = .ok r →
        (execute_sql engine sql_query st).1
          = { st with last_query := some sql_query, last_result := some r }) := by
  constructor
  · intro e h; simp [execute_sql, h]
  · intro r h; simp [execute_sql, h]

/-- Witness for C9 at a concrete failing engine and a concrete succeeding
engine. -/
theorem C9_execute_sql_atomic_witness :
    (execute_sql (fun _ => .error "boom") "SELECT 1" stRS).1 = stRS ∧
    (execute_sql (fun _ => .ok dfRS) "SELECT 1" stRS).1
      = { stRS with last_query := some "SELECT 1", last_result := some dfRS } :=
  ⟨(C9_execute_sql_atomic (fun _ => .error "boom") "SELECT 1" stRS).1 "boom" rfl,
   (C9_execute_sql_atomic (fun _ => .ok dfRS) "SELECT 1" stRS).2 dfRS rfl⟩

/-- C10: `extractByIntent` leaves the agent state — in particular the held
frame — unchanged on every strategy branch and on the fallback. -/
theorem C10_extract_by_intent_pure (st : AgentSt) (intent : QueryIntent) :
    (extract_by_intent st intent).1 = st := by
  simp only [extract_by_intent]
  split_ifs <;> rfl

/-- C5: with a successful LLM call, `validate` affirms validity iff the
reply carries the marker or the deterministic issue count is zero;
confidence is `clamp(1 - 0.2*issues, 0, 1)`, the quality score equals the
confidence, and both lie in `[0, 1]`. -/
theorem C5_validate_success (text question sql_query : String) (result : DataFrame) :
    (validate_result (some text) question sql_query result).is_valid
        = (containsSub (strLower text) "is_valid: true" || detIssueCount result == 0) ∧
    (validate_result (some text) question sql_query result).confidence
        = max 0 (min 1 (1 - (detIssueCount result : ℚ) * (1/5))) ∧
    (validate_result (some text) question sql_query result).quality_score
        = (validate_result (some text) question sql_query result).confidence ∧
    0 ≤ (validate_result (some text) question sql_query result).confidence ∧
    (validate_result (some text) question sql_query result).confidence ≤ 1 ∧
    0 ≤ (validate_result (some text) question sql_query result).quality_score ∧
    (validate_result (some text) question sql_query result).quality_score ≤ 1 := by
  refine ⟨rfl, rfl, rfl, ?_, ?_, ?_, ?_⟩ <;>
    simp only [validate_result] <;>
    first
      | exact le_max_left 0 _
      | exact max_le (by norm_num) (min_le_left 1 _)

/-- C6: with a failed LLM call, `validate` still returns a result — valid
iff the deterministic issue count is zero, confidence 0.7 / 0.3, quality
score equal to confidence, and the deterministic issues and suggestions
preserved unchanged. -/
theorem C6_validate_llm_failure (question sql_query : String) (result : DataFrame) :
    (validate_result none question sql_query result).is_valid
        = (detIssueCount result == 0) ∧
    (validate_result none question sql_query result).confidence
        = (if detIssueCount result == 0 then (7 : ℚ)/10 else 3/10) ∧
    (validate_result none question sql_query result).quality_score
        = (validate_result none question sql_query result).confidence ∧
    (validate_result none question sql_query result).issues = (detChecks result).1 ∧
    (validate_result none question sql_query result).suggestions = (detChecks result).2 :=
  ⟨rfl, rfl, rfl, rfl, rfl⟩

/-- A frame whose first column merely has "date" in its name
(`last_update`) while a later column is datetime-typed. -/
def dfTrendX : DataFrame :=
  ⟨[("last_update", DType.text), ("ts", DType.datetime), ("Sales", DType.numeric)],
   [[Cell.str "b", Cell.dt 2, Cell.num 5],
    [Cell.str "a", Cell.dt 1, Cell.num 7]]⟩

/-- An extraction agent holding `dfTrendX`. -/
def stTrendX : AgentSt := ⟨dfTrendX, none, none⟩

/-- A plain trend intent over the sales metric. -/
def intentTrendSales : QueryIntent := ⟨"trend", [], ["Sales"], [], none, none, none⟩

/-- An order-date/sales frame for the trend witness. -/
def dfDates : DataFrame :=
  ⟨[("order_date", DType.datetime), ("Sales", DType.numeric)],
   [[Cell.dt 3, Cell.num 4], [Cell.dt 1, Cell.num 9], [Cell.dt 3, Cell.num 2]]⟩

/-- An extraction agent holding `dfDates`. -/
def stDates : AgentSt := ⟨dfDates, none, none⟩

/-- C2 (amended): for every comparison intent with non-empty entities and
non-empty metrics, the entity column is resolved as the first column whose
lowercased name contains the lowercased form of ANY entity (not only the
first); when it resolves and the first metric names a column distinct from
it, the result groups the dataset by the entity column — one row per
distinct non-null entity value, each row carrying the key and the summed
first metric — sorted descending by that sum.  In particular, for
`{comparison, ["Region"], ["Sales"]}` the row count equals the number of
distinct regions (see the witness). -/
theorem C2_comparison_grouping (st : AgentSt) (intent : QueryIntent)
    (ec mc : String) (ei mi : Nat)
    (hq : intent.query_type = "comparison")
    (hec : resolveEntityCol st.df intent.entities = some ec) (hecne : ec ≠ "")
    (hmc : metricCol st.df intent.metrics = some mc) (hmcne : mc ≠ "")
    (hei : colIdx st.df ec = some ei) (hmi : colIdx st.df mc = some mi)
    (hne : mc ≠ ec) :
    (extract_by_intent st intent).2
        = .ok (sortValues (groupbyAgg st.df ec mc .sum) mc false) ∧
    (sortValues (groupbyAgg st.df ec mc .sum) mc false).rows.length
        = (distinctKeys st.df ei).length ∧
    (∀ row ∈ (sortValues (groupbyAgg st.df ec mc .sum) mc false).rows,
        ∃ k ∈ distinctKeys st.df ei,
          row = [k, Cell.num (sumQ (nonNullVals (groupRows st.df ei k) mi))]) ∧
    List.Sorted (fun a b => cellLe b a)
      ((sortValues (groupbyAgg st.df ec mc .sum) mc false).rows.map
        (fun row => cellAt row 1)) := by
  have hsi := colIdx_grouped_snd st.df ec mc .sum ei mi hei hmi hne
  have hmain := grouped_sorted_spec st.df ec mc .sum false mc 1 ei mi hei hmi hsi
  have hentNe : intent.entities.isEmpty = false := by
    cases hE : intent.entities with
    | nil => rw [hE, resolveEntityCol_nil] at hec; cases hec
    | cons a l => rfl
  have hmetNe : intent.metrics.isEmpty = false := by
    cases hM : intent.metrics with
    | nil => rw [hM] at hmc; simp [metricCol] at hmc
    | cons a l => rfl
  refine ⟨?_, hmain.1, hmain.2.1, ?_⟩
  · simp only [extract_by_intent, hq]
    norm_num
    simp only [extract_comparison, hentNe, hmetNe, hec, hmc]
    simp [pyTruthyS, hecne, hmcne]
  · exact List.pairwise_map.mpr (hmain.2.2.imp (fun hab => hab))

/-- Witness for C2 at the spec example `{comparison, ["Region"],
["Sales"]}` over `dfRS`: one row per distinct region, sorted descending by
summed sales. -/
theorem C2_comparison_grouping_witness :
    (extract_by_intent stRS intentCmpRegionSales).2
        = .ok (sortValues (groupbyAgg dfRS "Region" "Sales" .sum) "Sales" false) ∧
    (sortValues (groupbyAgg dfRS "Region" "Sales" .sum) "Sales" false).rows.length
        = (distinctKeys dfRS 0).length ∧
    List.Sorted (fun a b => cellLe b a)
      ((sortValues (groupbyAgg dfRS "Region" "Sales" .sum) "Sales" false).rows.map
        (fun row => cellAt row 1)) :=
  ⟨(C2_comparison_grouping stRS intentCmpRegionSales "Region" "Sales" 0 1 rfl
      (by decide) (by decide) (by decide) (by decide) (by decide) (by decide)
      (by decide)).1,
   (C2_comparison_grouping stRS intentCmpRegionSales "Region" "Sales" 0 1 rfl
      (by decide) (by decide) (by decide) (by decide) (by decide) (by decide)
      (by decide)).2.1,
   (C2_comparison_grouping stRS intentCmpRegionSales "Region" "Sales" 0 1 rfl
      (by decide) (by decide) (by decide) (by decide) (by decide) (by decide)
      (by decide)).2.2.2⟩

/-- C2 counterexample: with entities `["Zzz", "Region"]` the FIRST entity
matches no column of `dfRS` — so resolution by "substring match of the
first entity" fails, and with C8 the result would be the first-ten-rows
fallback (3 rows) — yet the code still groups by `Region` (any-entity
match) and returns the 2-row grouped frame. -/
theorem C2_first_entity_counterexample :
    ((dfRS.cols.map Prod.fst).all
        (fun c => !(containsSub (strLower c) (strLower "Zzz")))) = true ∧
    (extract_by_intent stRS intentCmpAnyEntity).2
        = .ok (sortValues (groupbyAgg dfRS "Region" "Sales" .sum) "Sales" false) ∧
    (sortValues (groupbyAgg dfRS "Region" "Sales" .sum) "Sales" false).rows.length = 2 ∧
    (dfRS.head 10).rows.length = 3 := by
  refine ⟨by decide, ?_, ?_, by decide⟩
  · have hec : resolveEntityCol dfRS ["Zzz", "Region"] = some "Region" := by decide
    have hmc : metricCol dfRS ["Sales"] = some "Sales" := by decide
    simp only [extract_by_intent, intentCmpAnyEntity, stRS]
    split_ifs <;> simp_all [extract_comparison, hec, hmc, pyTruthyS]
  · have h := (grouped_sorted_spec dfRS "Region" "Sales" .sum false "Sales" 1 0 1
      (by decide) (by decide) (by decide)).1
    rw [h]
    decide

/-- C7 (amended): for every trend intent with a non-empty metrics list, the
grouping column is the FIRST column that is either datetime-typed or has
"date" in its lowercased name — a single pass with no preference for the
declared datetime type.  When it resolves and the first metric names a
column distinct from it, the result has one row per distinct non-null
value of that column, each row carrying the key and the summed first
metric, sorted ascending by the date column. -/
theorem C7_trend_grouping (st : AgentSt) (intent : QueryIntent)
    (dc mc : String) (di mi : Nat)
    (hq : intent.query_type = "trend")
    (hdc : findDateCol st.df = some dc) (hdcne : dc ≠ "")
    (hmc : metricCol st.df intent.metrics = some mc) (hmcne : mc ≠ "")
    (hdi : colIdx st.df dc = some di) (hmi : colIdx st.df mc = some mi)
    (_hne : mc ≠ dc) :
    (extract_by_intent st intent).2
        = .ok (sortValues (groupbyAgg st.df dc mc .sum) dc true) ∧
    (sortValues (groupbyAgg st.df dc mc .sum) dc true).rows.length
        = (distinctKeys st.df di).length ∧
    (∀ row ∈ (sortValues (groupbyAgg st.df dc mc .sum) dc true).rows,
        ∃ k ∈ distinctKeys st.df di,
          row = [k, Cell.num (sumQ (nonNullVals (groupRows st.df di k) mi))]) ∧
    List.Sorted cellLe
      ((sortValues (groupbyAgg st.df dc mc .sum) dc true).rows.map
        (fun row => cellAt row 0)) := by
  have hsi := colIdx_grouped_fst st.df dc mc .sum di mi hdi hmi
  have hmain := grouped_sorted_spec st.df dc mc .sum true dc 0 di mi hdi hmi hsi
  have hmetNe : intent.metrics.isEmpty = false := by
    cases hM : intent.metrics with
    | nil => rw [hM] at hmc; simp [metricCol] at hmc
    | cons a l => rfl
  refine ⟨?_, hmain.1, hmain.2.1, ?_⟩
  · simp only [extract_by_intent, hq]
    norm_num
    simp only [extract_trend, hmetNe, hdc, hmc]
    simp [pyTruthyS, hdcne, hmcne]
  · exact List.pairwise_map.mpr (hmain.2.2.imp (fun hab => hab))

/-- Witness for C7 over the order-date/sales frame `dfDates`: one row per
distinct date, sorted ascending by the date column. -/
theorem C7_trend_grouping_witness :
    (extract_by_intent stDates intentTrendSales).2
        = .ok (sortValues (groupbyAgg dfDates "order_date" "Sales" .sum) "order_date" true) ∧
    (sortValues (groupbyAgg dfDates "order_date" "Sales" .sum) "order_date" true).rows.length
        = (distinctKeys dfDates 0).length ∧
    List.Sorted cellLe
      ((sortValues (groupbyAgg dfDates "order_date" "Sales" .sum) "order_date" true).rows.map
        (fun row => cellAt row 0)) :=
  ⟨(C7_trend_grouping stDates intentTrendSales "order_date" "Sales" 0 1 rfl
      (by decide) (by decide) (by decide) (by decide) (by decide) (by decide)
      (by decide)).1,
   (C7_trend_grouping stDates intentTrendSales "order_date" "Sales" 0 1 rfl
      (by decide) (by decide) (by decide) (by decide) (by decide) (by decide)
      (by decide)).2.1,
   (C7_trend_grouping stDates intentTrendSales "order_date" "Sales" 0 1 rfl
      (by decide) (by decide) (by decide) (by decide) (by decide) (by decide)
      (by decide)).2.2.2⟩

/-- C7 counterexample: `dfTrendX` declares a datetime column `ts`, but the
trend strategy groups by the earlier TEXT column `last_update` (its name
contains "date"), because the resolution is a single first-match pass with
no preference for the declared datetime type. -/
theorem C7_datetime_preference_counterexample :
    (("ts", DType.datetime) ∈ dfTrendX.cols) ∧
    findDateCol dfTrendX = some "last_update" ∧
    colDType dfTrendX 0 = DType.text ∧
    (extract_by_intent stTrendX intentTrendSales).2
        = .ok (sortValues (groupbyAgg dfTrendX "last_update" "Sales" .sum)
                "last_update" true) ∧
    (sortValues (groupbyAgg dfTrendX "last_update" "Sales" .sum) "last_update" true).cols
        = [("last_update", DType.text), ("Sales", DType.numeric)] := by
  refine ⟨by decide, by decide, by decide, ?_, ?_⟩
  · have hdc : findDateCol dfTrendX = some "last_update" := by decide
    have hmc : metricCol dfTrendX ["Sales"] = some "Sales" := by decide
    simp only [extract_by_intent, intentTrendSales, stTrendX]
    split_ifs <;> simp_all [extract_trend, hdc, hmc, pyTruthyS]
  · rw [sortValues_cols,
        groupbyAgg_cols dfTrendX "last_update" "Sales" .sum 0 2 (by decide) (by decide)]
    decide

/-- C8: an unrecognized query type yields exactly the first `min(10, n)`
rows of the unmodified dataset in original order, and the comparison,
trend and aggregation strategies return the same first-ten-rows fallback
whenever their grouping column or first metric fails to resolve. -/
theorem C8_head10_fallback (st : AgentSt) (intent : QueryIntent) :
    (isKnownQueryType intent.query_type = false →
        (extract_by_intent st intent).2 = .ok ⟨st.df.cols, st.df.rows.take 10⟩ ∧
        (st.df.head 10).rows.length = min 10 st.df.rows.length) ∧
    (intent.query_type = "comparison" →
        pyTruthyS (resolveEntityCol st.df intent.entities) = false ∨
          pyTruthyS (metricCol st.df intent.metrics) = false →
        (extract_by_intent st intent).2 = .ok (st.df.head 10)) ∧
    (intent.query_type = "trend" →
        pyTruthyS (findDateCol st.df) = false ∨
          pyTruthyS (metricCol st.df intent.metrics) = false →
        (extract_by_intent st intent).2 = .ok (st.df.head 10)) ∧
    (intent.query_type = "aggregation" →
        pyTruthyS (resolveEntityCol st.df intent.entities) = false ∨
          pyTruthyS (metricCol st.df intent.metrics) = false →
        (extract_by_intent st intent).2 = .ok (st.df.head 10)) := by
  refine ⟨?_, ?_, ?_, ?_⟩
  · intro h
    simp only [isKnownQueryType, Bool.or_eq_false_iff] at h
    obtain ⟨⟨⟨⟨h1, h2⟩, h3⟩, h4⟩, h5⟩ := h
    refine ⟨?_, by simp [DataFrame.head, List.length_take]⟩
    simp [extract_by_intent, h1, h2, h3, h4, h5, DataFrame.head]
  · intro hq hres
    simp only [extract_by_intent, hq]
    norm_num
    simp only [extract_comparison]
    split_ifs with g1 g2 g3 <;> first | rfl | (rcases hres with h | h <;> simp_all)
  · intro hq hres
    simp only [extract_by_intent, hq]
    norm_num
    simp only [extract_trend]
    split_ifs with g1 g2 <;> first | rfl | (rcases hres with h | h <;> simp_all)
  · intro hq hres
    simp only [extract_by_intent, hq]
    norm_num
    simp only [extract_aggregation]
    split_ifs with g1 g2 g3 <;> first | rfl | (rcases hres with h | h <;> simp_all)

/-- Witness for C8 at a concrete unknown query type and at concrete
unresolved comparison, trend and aggregation intents. -/
theorem C8_head10_fallback_witness :
    (extract_by_intent stRS intentUnknownQt).2 = .ok ⟨dfRS.cols, dfRS.rows.take 10⟩ ∧
    (extract_by_intent stRS intentCmpNoEnt).2 = .ok (dfRS.head 10) ∧
    (extract_by_intent stRS intentTrendNoDate).2 = .ok (dfRS.head 10) ∧
    (extract_by_intent stRS intentAggNoMetric).2 = .ok (dfRS.head 10) :=
  ⟨((C8_head10_fallback stRS intentUnknownQt).1 (by decide)).1,
   (C8_head10_fallback stRS intentCmpNoEnt).2.1 rfl (Or.inl (by decide)),
   (C8_head10_fallback stRS intentTrendNoDate).2.2.1 rfl (Or.inl (by decide)),
   (C8_head10_fallback stRS intentAggNoMetric).2.2.2 rfl (Or.inr (by decide))⟩

theorem applyFilters_cols (fs : List (String × Cell)) (df : DataFrame) :
    (applyFilters df fs).cols = df.cols := by
  induction fs generalizing df with
  | nil => rfl
  | cons f rest ih =>
    obtain ⟨c, v⟩ := f
    simp only [applyFilters]
    cases h : colIdx df c <;> simp only [h] <;> exact ih _

theorem applyFilters_sound (fs : List (String × Cell)) (df : DataFrame) :
    ∀ r ∈ (applyFilters df fs).rows, r ∈ df.rows ∧
      ∀ cv ∈ fs, ∀ i, colIdx df cv.1 = some i →
        cellEqPy (cellAt r i) cv.2 = true := by
  induction fs generalizing df with
  | nil =>
    intro r hr
    exact ⟨hr, by simp⟩
  | cons f rest ih =>
    obtain ⟨c, v⟩ := f
    intro r hr
    simp only [applyFilters] at hr
    cases h : colIdx df c with
    | none =>
      simp only [h] at hr
      obtain ⟨hmem, hall⟩ := ih df r hr
      refine ⟨hmem, ?_⟩
      intro cv hcv i hi
      rcases List.mem_cons.mp hcv with rfl | hcv2
      · rw [h] at hi; cases hi
      · exact hall cv hcv2 i hi
    | some j =>
      simp only [h] at hr
      obtain ⟨hmem, hall⟩ := ih _ r hr
      have hmem2 := List.mem_filter.mp hmem
      refine ⟨hmem2.1, ?_⟩
      intro cv hcv i hi
      rcases List.mem_cons.mp hcv with rfl | hcv2
      · rw [h] at hi
        injection hi with hij
        subst hij
        exact hmem2.2
      · exact hall cv hcv2 i hi

theorem headPy_cols (n : Option Int) (df : DataFrame) :
    (headPy n df).cols = df.cols := by
  cases n with
  | none => rfl
  | some k => simp only [headPy]; split_ifs <;> rfl

theorem headPy_rows_subset (n : Option Int) (df : DataFrame) :
    ∀ r ∈ (headPy n df).rows, r ∈ df.rows := by
  cases n with
  | none => intro r hr; exact hr
  | some k =>
    intro r hr
    simp only [headPy] at hr
    split_ifs at hr <;> exact List.take_subset _ _ hr

/-- C4 (amended): every filter intent is answered from the frame filtered
by the equality filters in order — every returned row is a dataset row
satisfying each filter whose column exists — truncated to `limit` when a
non-negative integer limit is given and to 100 when the limit KEY is
absent.  (A present-but-null limit, which every intent built from
`QueryIntent(...).dict()` carries when no limit was set, disables the
truncation: see the counterexample.) -/
theorem C4_filter_equality (st : AgentSt) (intent : QueryIntent)
    (hq : intent.query_type = "filter") :
    (extract_by_intent st intent).2 = .ok (extract_filtered st.df intent) ∧
    (extract_filtered st.df intent).cols = st.df.cols ∧
    (∀ r ∈ (extract_filtered st.df intent).rows,
        r ∈ st.df.rows ∧
        ∀ cv ∈ intent.filters, ∀ i, colIdx st.df cv.1 = some i →
          cellEqPy (cellAt r i) cv.2 = true) ∧
    (∀ n : Int, intent.limit = some (some n) → 0 ≤ n →
        (extract_filtered st.df intent).rows.length ≤ n.toNat) ∧
    (intent.limit = none → (extract_filtered st.df intent).rows.length ≤ 100) := by
  refine ⟨?_, ?_, ?_, ?_, ?_⟩
  · simp only [extract_by_intent, hq]
    split_ifs with a b c d e <;> simp_all
  · rw [extract_filtered, headPy_cols, applyFilters_cols]
  · intro r hr
    have hr2 := headPy_rows_subset _ _ r hr
    exact applyFilters_sound intent.filters st.df r hr2
  · intro n hl hn
    simp only [extract_filtered, hl, pyGetLimit, headPy, if_pos hn]
    simp [List.length_take]
  · intro hl
    simp only [extract_filtered, hl, pyGetLimit, headPy]
    norm_num

/-- Witness for C4 at the spec example: the Electronics filter with
limit 5 returns at most five rows, each from the dataset with the
`Category` cell equal to "Electronics". -/
theorem C4_filter_equality_witness :
    (extract_by_intent stCat intentFilterElec).2
      = .ok (extract_filtered dfCat intentFilterElec) ∧
    (∀ r ∈ (extract_filtered dfCat intentFilterElec).rows,
        r ∈ dfCat.rows ∧
        ∀ cv ∈ intentFilterElec.filters, ∀ i, colIdx dfCat cv.1 = some i →
          cellEqPy (cellAt r i) cv.2 = true) ∧
    (extract_filtered dfCat intentFilterElec).rows.length ≤ 5 :=
  ⟨(C4_filter_equality stCat intentFilterElec rfl).1,
   (C4_filter_equality stCat intentFilterElec rfl).2.2.1,
   (C4_filter_equality stCat intentFilterElec rfl).2.2.2.1 5 rfl (by norm_num)⟩

/-- C4 counterexample: a filter intent whose limit key is present with the
value Python `None` (the shape `QueryIntent(...).dict()` always produces
when the model set no limit) is NOT truncated to the default 100 rows:
over a 150-row frame all 150 rows come back, because
`intent.get('limit', 100)` returns `None` and `df.head(None)` is
`iloc[:None]`, the whole frame. -/
theorem C4_filter_limit_none_counterexample :
    ((extract_by_intent ⟨dfN150, none, none⟩ intentFilterLimitNone).2.map
        (fun d => d.rows.length)) = .ok 150 ∧ ¬(150 ≤ 100) := by
  constructor
  · have h : (extract_by_intent ⟨dfN150, none, none⟩ intentFilterLimitNone).2
        = .ok dfN150 := by
      simp [extract_by_intent, intentFilterLimitNone, extract_filtered, applyFilters,
            pyGetLimit, headPy]
    rw [h]
    show Except.ok (dfN150.rows.length) = Except.ok 150
    have h150 : dfN150.rows.length = 150 := by
      simp only [dfN150]
      rw [List.length_map, List.length_range]
    rw [h150]
  · norm_num

/-- C3 (code bug): the spec lists `avg` among the aggregation methods, and
the structured-intent schema in `query_agent.py` documents the field as
"sum, avg, max, min, count", but a pandas groupby object has no attribute
`avg`, so `getattr(gb, 'avg', 'sum')` yields the STRING `'sum'` and the
call `agg_func()` raises `TypeError` instead of aggregating. -/
theorem C3_avg_aggregation_raises :
    (extract_by_intent stRS intentAggAvg).2
      = .error "TypeError: str object is not callable" := by
  decide

/-- Oracles where every collaborator succeeds. -/
def oAllOk : Oracles :=
  ⟨some defaultIntent, some "SELECT 1", fun _ => .ok dfRS, some "looks good", some "fine"⟩

/-- Oracles where exactly the validation LLM call fails. -/
def oValFail : Oracles :=
  ⟨some defaultIntent, some "SELECT 1", fun _ => .ok dfRS, none, some "fine"⟩

/-- C1 (amended): every run drives all four stages — exactly one trace
message per stage — and returns a non-empty answer, provided a successful
synthesis reply is itself non-empty.  Collaborator failures at resolution,
validation and synthesis are absorbed INSIDE the respective agents
(default intent and default SQL; internally degraded validation result
with confidence 0.7 or 0.3; deterministic fallback summary) and leave
`error` empty; only an extraction-stage failure populates `error`, and it
passes the empty relation forward. -/
theorem C1_fail_forward (o : Oracles) (q : String)
    (hs : ∀ s, o.synthLLM = some s → s ≠ "") :
    (process_query o q).messages.length = 4 ∧
    (process_query o q).answer ≠ "" ∧
    ((process_query o q).error = "" ↔ extractionOk o = true) ∧
    (extractionOk o = false →
        (process_query o q).data = emptyDF ∧ (process_query o q).error ≠ "") ∧
    (o.validateLLM = none →
        ∃ v, (process_query o q).validation = some v ∧
          (v.confidence = 7/10 ∨ v.confidence = 3/10) ∧
          v.quality_score = v.confidence) ∧
    (o.synthLLM = none → (process_query o q).data.rows.length > 0 →
        ∃ rest, (process_query o q).answer = "Analysis Results for: " ++ rest) := by
  rw [process_query_eq]
  dsimp only
  refine ⟨rfl, ?_, ?_, ?_, ?_, ?_⟩
  · exact synthesis_answer_ne_empty o.synthLLM q _ _ hs
  · unfold extractionOk
    by_cases hsql : (generate_sql o.sqlLLM "sales_data" == "") = true
    · simp [hsql]
    · cases heng : o.engine (generate_sql o.sqlLLM "sales_data") with
      | ok r => simp [hsql, heng]
      | error e =>
        simp [hsql, heng]
        exact append_ne_empty_left _ _ (by decide)
  · intro hfail
    unfold extractionOk at hfail
    by_cases hsql : (generate_sql o.sqlLLM "sales_data" == "") = true
    · exact ⟨by simp [hsql], by simp [hsql]⟩
    · cases heng : o.engine (generate_sql o.sqlLLM "sales_data") with
      | ok r => simp [hsql, heng] at hfail
      | error e =>
        refine ⟨by simp [hsql, heng], ?_⟩
        simp [hsql, heng]
        exact append_ne_empty_left _ _ (by decide)
  · intro hval
    rw [hval]
    exact ⟨_, rfl, (validate_result_llm_none_conf q _ _).1,
           (validate_result_llm_none_conf q _ _).2⟩
  · intro hsyn hd
    rw [if_pos hd]
    simp only [generate_summary, hsyn]
    exact fallback_summary_shape q _ _

/-- Witness for C1 at fully successful oracles. -/
theorem C1_fail_forward_witness :
    (process_query oAllOk "Q").messages.length = 4 ∧
    (process_query oAllOk "Q").answer ≠ "" ∧
    ((process_query oAllOk "Q").error = "" ↔ extractionOk oAllOk = true) :=
  have hs : ∀ s, oAllOk.synthLLM = some s → s ≠ "" := by
    intro s h he
    rw [he] at h
    simp [oAllOk] at h
  ⟨(C1_fail_forward oAllOk "Q" hs).1,
   (C1_fail_forward oAllOk "Q" hs).2.1,
   (C1_fail_forward oAllOk "Q" hs).2.2.1⟩

/-- C1 counterexample: inject a failure into the validation-stage LLM
collaborator while everything else succeeds.  The pipeline reaches the end
with a non-empty answer, but `error` is NOT populated for the failing
stage (the agent catches the failure internally), and the forwarded
validation result is the internally degraded one — `is_valid` true,
confidence 0.7 — not the synthetic
`{is_valid: false, confidence: 0}` substitute the claim describes. -/
theorem C1_validation_internal_catch_counterexample :
    (process_query oValFail "q").error = "" ∧
    (process_query oValFail "q").validation
        = some { is_valid := true, confidence := 7/10, issues := [],
                 suggestions := [], quality_score := 7/10,
                 row_count := 3, column_count := 2 } ∧
    (process_query oValFail "q").answer = "fine" :=
  ⟨rfl, rfl, rfl⟩

end Retail
